import Mathlib

/-
  Verification development for the Convertors file-format conversion gateway.

  The definitions below are a shallow embedding of the conversion dispatch
  and fallback engine of the repository: the format tables, the batch
  request handler of app.post /api/convert, the document fallback chain of
  convertDocument, the mutually recursive multi-stage pipeline
  convertImage / convertDocument (modelled with explicit fuel so that
  divergence of the recursion is observable), the media command
  construction of convertMedia, the temporary-artifact path choices, and
  the bounded-retry deletion loop of cleanupFiles.

  Unless noted otherwise every definition is translated from the main
  server source (src/unnamed/part_001); definitions translated from the
  legacy variant src/server.js carry a serverJs prefix.
-/

namespace Convertors

/-! ## Format tables (part_001 lines 226-244) -/

/-- The global allow-list allFormats (part_001 lines 226-233). -/
def allFormats : List String :=
  ["bmp", "eps", "gif", "ico", "png", "svg", "tga", "tiff", "wbmp", "webp", "jpg", "jpeg",
   "pdf", "docx", "txt", "rtf", "odt",
   "mp3", "wav", "aac", "flac", "ogg", "opus", "wma", "aiff", "m4v", "mmf", "3g2",
   "mp4", "avi", "mov", "webm", "mkv", "flv", "wmv",
   "zip", "7z",
   "epub", "mobi", "azw3"]

/-- The value of the compressor key of supportedFormats (part_001 line 237). -/
def compressorFormats : List String := ["jpg", "png", "svg"]

/-- The supportedFormats object (part_001 lines 235-244): a lookup from the
conversion-type key to the list of accepted output extensions.  Every key
except compressor is bound to the full allFormats list in the source. -/
def supportedFormats (t : String) : Option (List String) :=
  if t = "image" then some allFormats
  else if t = "compressor" then some compressorFormats
  else if t = "pdfs" then some allFormats
  else if t = "audio" then some allFormats
  else if t = "video" then some allFormats
  else if t = "document" then some allFormats
  else if t = "archive" then some allFormats
  else if t = "ebook" then some allFormats
  else none

/-- The output-format validation performed per item by the handler
(part_001 lines 290-295): the declared type must be a key of
supportedFormats and the requested extension must be a member of the list
bound to that key.  Returns true exactly when the pair is accepted. -/
def validateTarget (t ext : String) : Bool :=
  match supportedFormats t with
  | none => false
  | some l => l.contains ext

/-- Modelled from the spec: the per-category supported-output sets exactly as
the claim states them (image, document, audio, video, archive, ebook grouped
allow-list).  This definition follows the words of the spec, for comparison
with the supportedFormats table translated from the source. -/
def specCategoryOutputs (t : String) : Option (List String) :=
  if t = "image" then
    some ["bmp", "eps", "gif", "ico", "png", "svg", "tga", "tiff", "wbmp", "webp", "jpg", "jpeg"]
  else if t = "document" then some ["pdf", "docx", "txt", "rtf", "odt"]
  else if t = "audio" then
    some ["mp3", "wav", "aac", "flac", "ogg", "opus", "wma", "aiff", "m4v", "mmf", "3g2"]
  else if t = "video" then some ["mp4", "avi", "mov", "webm", "mkv", "flv", "wmv"]
  else if t = "archive" then some ["zip", "7z"]
  else if t = "ebook" then some ["epub", "mobi", "azw3"]
  else none

/-- Acceptance as the claim describes it: membership in the grouped
per-category set. -/
def specValidateTarget (t ext : String) : Bool :=
  match specCategoryOutputs t with
  | none => false
  | some l => l.contains ext

/-! ## Document fallback chain (part_001 convertDocument, lines 492-541)

The three candidate adapters tryUnoconvConversion, tryLibreOfficeConvert
and tryGhostscriptPandoc are external subprocess / library calls; each is
modelled by its outcome, an Except String Unit.  The chain records one
Attempt per adapter invocation, in invocation order, mirroring the
console log written at each attempt. -/

/-- The three candidate document adapters, in the order the source tries
them. -/
inductive AdapterName where
  | unoconv
  | libre
  | gsPandoc
deriving DecidableEq

/-- One attempt record: which adapter ran and, when it failed, the failure
message it reported (none means the attempt succeeded). -/
structure Attempt where
  adapter : AdapterName
  failure : Option String
deriving DecidableEq

/-- Outcomes of the three external document-conversion capabilities for a
given input: the environment of one convertDocument run. -/
structure DocAdapters where
  unoconv : Except String Unit
  libre : Except String Unit
  gsPandoc : Except String Unit

/-- The fixed error message thrown when all three adapters have failed
(part_001 line 539). -/
def allFailedMessage : String :=
  "Document conversion failed after all attempts. The file may be encrypted or corrupted."

/-- The fallback chain of convertDocument (part_001 lines 514-540): try
unoconv, on failure try libreoffice-convert, on failure try
Ghostscript+Pandoc; on total failure throw the fixed allFailedMessage.
Returns the outcome together with the list of attempt records in the
order the adapters were invoked. -/
def convertDocumentChain (a : DocAdapters) : Except String Unit × List Attempt :=
  match a.unoconv with
  | .ok _ => (.ok (), [⟨.unoconv, none⟩])
  | .error e1 =>
    match a.libre with
    | .ok _ => (.ok (), [⟨.unoconv, some e1⟩, ⟨.libre, none⟩])
    | .error e2 =>
      match a.gsPandoc with
      | .ok _ =>
        (.ok (), [⟨.unoconv, some e1⟩, ⟨.libre, some e2⟩, ⟨.gsPandoc, none⟩])
      | .error e3 =>
        (.error allFailedMessage,
         [⟨.unoconv, some e1⟩, ⟨.libre, some e2⟩, ⟨.gsPandoc, some e3⟩])

/-! ## Multi-stage pipeline recursion (part_001 convertImage lines 392-455,
convertDocument lines 492-541)

convertImage and convertDocument call each other: convertImage sends a
non-image, document-like input through convertDocument to an intermediate
PDF and then recurses on that PDF; convertDocument sends an image input
through convertImage to an intermediate PDF and then recurses on that
PDF.  The intermediate file is named temp_TIMESTAMP.pdf, so the recursive
call always sees input extension pdf.  The embedding makes the recursion
depth explicit with fuel: a result of none means the run needs more
recursion depth than the given fuel, so a result of none at every fuel
is divergence of the source recursion. -/

/-- The imageFormats list of convertImage (part_001 line 393). -/
def imageFormats : List String :=
  ["bmp", "eps", "gif", "ico", "png", "svg", "tga", "tiff", "wbmp", "webp", "jpg", "jpeg"]

/-- The formats Sharp accepts as outputs (part_001 line 395). -/
def sharpSupported : List String := ["bmp", "gif", "png", "tiff", "webp", "jpg", "jpeg"]

/-- The document-like input extensions that trigger the PDF preprocessing
branch of convertImage (part_001 line 396). -/
def docLikeFormats : List String := ["pdf", "docx", "txt", "rtf", "odt"]

/-- The supportedDocumentFormats list of convertDocument (part_001 line 494). -/
def supportedDocumentFormats : List String := ["docx", "pdf", "txt", "rtf", "odt"]

/-- Outcomes of all external capabilities the image / document pipeline can
invoke during one request. -/
structure ConvEnv where
  doc : DocAdapters
  svgo : Except String Unit
  sharp : Except String Unit
  pdfkit : Except String Unit

mutual

/-- part_001 convertImage (lines 392-455), fueled.  If the input extension
is not an image but is document-like, the source first converts the input
to an intermediate temp_TIMESTAMP.pdf via convertDocument and then calls
itself on that PDF; otherwise it performs the direct conversion (svgo for
the svg compressor, Sharp for the supported raster formats, PDFKit for an
image-to-pdf target, an error otherwise). -/
def convertImage (env : ConvEnv) :
    Nat → String → String → String → Option (Except String Unit)
  | 0, _, _, _ => none
  | fuel + 1, inputExt, format, subSection =>
    if !imageFormats.contains inputExt && docLikeFormats.contains inputExt then
      match convertDocument env fuel inputExt "pdf" with
      | none => none
      | some (.error e) => some (.error e)
      | some (.ok _) => convertImage env fuel "pdf" format subSection
    else if imageFormats.contains format then
      if subSection = "compressor" && format = "svg" then some env.svgo
      else if sharpSupported.contains format then some env.sharp
      else some (.error ("Unsupported image format for Sharp: " ++ format))
    else if format = "pdf" then some env.pdfkit
    else some (.error ("Unsupported image output format: " ++ format))

/-- part_001 convertDocument (lines 492-541), fueled.  An image input is
first converted to an intermediate temp_TIMESTAMP.pdf via convertImage
with subSection image and the function recurses on that PDF; otherwise,
after the output-format check, the three-adapter fallback chain runs. -/
def convertDocument (env : ConvEnv) :
    Nat → String → String → Option (Except String Unit)
  | 0, _, _ => none
  | fuel + 1, inputExt, format =>
    if imageFormats.contains inputExt then
      match convertImage env fuel inputExt "pdf" "image" with
      | none => none
      | some (.error e) => some (.error e)
      | some (.ok _) => convertDocument env fuel "pdf" format
    else if !supportedDocumentFormats.contains format then
      some (.error ("Unsupported output document format: " ++ format))
    else some (convertDocumentChain env.doc).fst

end

/-- A concrete environment in which every external capability succeeds. -/
def envAllOk : ConvEnv :=
  { doc := { unoconv := .ok (), libre := .ok (), gsPandoc := .ok () },
    svgo := .ok (), sharp := .ok (), pdfkit := .ok () }

/-! ## Directory layout and temporary artifacts
(part_001 lines 75-77, 397, 460, 498, 564, 590; server.js lines 87-88,
353, 423, 459)

A path produced by path.join of a directory and a slash-free file name is
modelled structurally as the pair of the directory and the name, so that
the directory a file lives in is directly observable. -/

def uploadsDir : String := "/app/Uploads"

def convertedDir : String := "/app/converted"

/-- The process-private scratch directory of part_001 (line 77).  The
legacy src/server.js defines no scratch directory at all. -/
def tempDir : String := "/app/tmp"

/-- A filesystem path split as the directory produced by path.join and the
slash-free file name inside it. -/
structure ArtifactPath where
  dir : String
  name : String
deriving DecidableEq

/-- Intermediate PDF of part_001 convertImage (line 397):
path.join(tempDir, temp_TIMESTAMP.pdf). -/
def imageTempPdf (ts : Nat) : ArtifactPath := ⟨tempDir, s!"temp_{ts}.pdf"⟩

/-- Intermediate PDF of part_001 convertPdf (line 460). -/
def pdfTempPdf (ts : Nat) : ArtifactPath := ⟨tempDir, s!"temp_{ts}.pdf"⟩

/-- Intermediate PDF of part_001 convertDocument (line 498). -/
def documentTempPdf (ts : Nat) : ArtifactPath := ⟨tempDir, s!"temp_{ts}.pdf"⟩

/-- Temporary input copy of part_001 tryLibreOfficeConvert (line 564). -/
def libreTempInput (ts ext : String) : ArtifactPath :=
  ⟨tempDir, "libreoffice_input_" ++ ts ++ "." ++ ext⟩

/-- Scratch directory of part_001 tryGhostscriptPandoc (line 590), created
by mkdtemp inside tempDir. -/
def gsScratchDir (suffix : String) : ArtifactPath := ⟨tempDir, "gs-" ++ suffix⟩

/-- Intermediate PDF of the legacy src/server.js convertImage (line 353):
path.join(convertedDir, temp_TIMESTAMP.pdf). -/
def serverJsImageTempPdf (ts : Nat) : ArtifactPath := ⟨convertedDir, s!"temp_{ts}.pdf"⟩

/-- Intermediate PDF of the legacy src/server.js convertPdf (line 423) and
convertDocument (line 459): also inside convertedDir. -/
def serverJsPdfTempPdf (ts : Nat) : ArtifactPath := ⟨convertedDir, s!"temp_{ts}.pdf"⟩

/-- The path served by the GET /converted/:filename route (part_001 line
360): path.join(convertedDir, filename), where the route pattern restricts
filename to slash-free names. -/
def servedPath (filename : String) : ArtifactPath := ⟨convertedDir, filename⟩

/-- A path is reachable through the static download route exactly when it
is servedPath of some file name. -/
def isServed (p : ArtifactPath) : Prop := ∃ fn, p = servedPath fn

/-! ## Bounded-retry cleanup (part_001 cleanupFiles, lines 710-741)

The filesystem is a map from path strings to a per-path state.  A present
file may be transiently locked: lockedThen k means the next k unlink
attempts fail with EPERM and the following one succeeds, so lockedThen 0
is an ordinary deletable file.  otherErr is a file whose unlink fails with
an error that is neither ENOENT nor EPERM. -/

inductive PathState where
  | absent
  | lockedThen (k : Nat)
  | otherErr
deriving DecidableEq

/-- Per-path outcome of one cleanupFiles invocation, mirroring the four
ways the retry loop of the source ends: successful unlink, ENOENT treated
as success, EPERM retries exhausted (non-fatal leak), or a different error
logged and abandoned.  Every branch of the source catches its error, so
there is no throwing outcome. -/
inductive DelOutcome where
  | deleted
  | alreadyAbsent
  | epermGaveUp
  | otherError
deriving DecidableEq

/-- maxRetries of cleanupFiles (part_001 line 711): the while loop allows
at most 3 unlink attempts per path. -/
def maxRetries : Nat := 3

/-- The retry loop of cleanupFiles for one path (part_001 lines 714-738):
access + unlink, ENOENT means already gone (success), EPERM consumes one
of the remaining attempts and retries after a fixed delay, any other
error stops the loop.  The first argument is the number of attempts still
allowed. -/
def deleteWithRetry : Nat → PathState → DelOutcome × PathState
  | _, .absent => (.alreadyAbsent, .absent)
  | _, .otherErr => (.otherError, .otherErr)
  | 0, .lockedThen k => (.epermGaveUp, .lockedThen k)
  | fuel + 1, .lockedThen k =>
    match k with
    | 0 => (.deleted, .absent)
    | k + 1 => deleteWithRetry fuel (.lockedThen k)

/-- part_001 cleanupFiles (lines 710-741): every path in the list is
processed independently (Promise.all over the map); the result is the
per-path outcome list and the updated filesystem.  The function is total:
no outcome re-raises, matching the source where every error path is
caught inside the loop. -/
def cleanupFiles (fs : String → PathState) (paths : List String) :
    List (String × DelOutcome) × (String → PathState) :=
  (paths.map fun p => (p, (deleteWithRetry maxRetries (fs p)).1),
   fun q => if paths.contains q then (deleteWithRetry maxRetries (fs q)).2 else fs q)

/-- The DELETE /api/delete/:filename handler (part_001 lines 379-390):
delegates to cleanupFiles on path.join(convertedDir, filename) and
responds 200 with a success message; the 500 catch branch would require
cleanupFiles to reject, which it never does. -/
def deleteHandler (fs : String → PathState) (filename : String) :
    (Nat × String) × (String → PathState) :=
  let filePath := convertedDir ++ "/" ++ filename
  let r := cleanupFiles fs [filePath]
  ((200, s!"File {filename} deleted successfully."), r.2)

/-! ## Media command construction (part_001 convertMedia, lines 611-677)

convertMedia builds a fluent-ffmpeg invocation; the embedding records the
structure of the command it assembles (inputs, codecs, extra output
options) since the execution itself is the external transcoder. -/

/-- supportedAudioFormats of convertMedia (part_001 line 612). -/
def supportedAudioFormats : List String :=
  ["aac", "aiff", "flac", "m4v", "mmf", "ogg", "opus", "wav", "wma", "3g2", "mp3"]

/-- supportedVideoFormats of convertMedia (part_001 line 613). -/
def supportedVideoFormats : List String :=
  ["mp4", "avi", "mov", "webm", "mkv", "flv", "wmv", "3g2"]

/-- The audio-only input extensions of the isAudioInput test (part_001
line 620). -/
def audioInputExts : List String :=
  ["mp3", "wav", "aac", "flac", "ogg", "opus", "wma", "aiff", "mmf"]

/-- The lavfi source string synthesizing the fixed-resolution black video
track (part_001 line 625). -/
def blackVideoSource : String := "color=c=black:s=320x240:r=25"

/-- The ffmpeg invocation convertMedia assembles: the original file is the
main input; a second synthetic input may be added; codecs and extra
output options as set by the branch taken. -/
structure FfmpegSpec where
  mainInput : String
  extraInput : Option String
  extraInputFormat : Option String
  videoCodec : Option String
  audioCodec : Option String
  extraOutputOptions : List String
  outputFormat : String
deriving DecidableEq

/-- The command-construction part of part_001 convertMedia (lines 611-661):
after the output-format check, an audio-only input with a video-container
target gets the synthesized black lavfi video input muxed against the
original audio; otherwise the per-format codec choices apply.  The common
tail adds the threading options and the output format. -/
def convertMediaCommand (inputPath format inputExt : String) :
    Except String FfmpegSpec :=
  if !supportedAudioFormats.contains format && !supportedVideoFormats.contains format then
    .error ("Unsupported media output format: " ++ format)
  else
    let isAudioInput := audioInputExts.contains inputExt
    let isVideoOutput := supportedVideoFormats.contains format
    let base : FfmpegSpec :=
      { mainInput := inputPath, extraInput := none, extraInputFormat := none,
        videoCodec := none, audioCodec := none,
        extraOutputOptions := [], outputFormat := format }
    let spec :=
      if isVideoOutput && isAudioInput then
        { base with
            extraInput := some blackVideoSource, extraInputFormat := some "lavfi",
            videoCodec := some "mpeg4", audioCodec := some "aac",
            extraOutputOptions := ["-shortest", "-threads 1", "-preset ultrafast"] }
      else if format = "aac" then { base with audioCodec := some "aac" }
      else if format = "wma" then { base with audioCodec := some "wmav2" }
      else if format = "m4v" || format = "3g2" then
        { base with videoCodec := some "mpeg4", audioCodec := some "aac" }
      else if format = "mmf" then { base with audioCodec := some "pcm_s16le" }
      else if supportedVideoFormats.contains format then
        { base with videoCodec := some "libx264", audioCodec := some "aac" }
      else base
    .ok { spec with
            extraOutputOptions := spec.extraOutputOptions ++ ["-threads 1", "-preset ultrafast"] }

/-! ## Batch orchestrator (part_001 app.post /api/convert, lines 254-356)

The handler is modelled over the parsed request: the uploaded files, and
the formats descriptor payload as Option (none is a JSON.parse failure).
The per-item conversion (format checks, classification and adapter
dispatch, lines 287-336) is abstracted as an oracle passed in, since the
batch-level claims quantify over its outcomes; the trace of items the
loop actually dispatched is recorded to make "no adapter runs" and the
abort point observable. -/

structure UploadedFile where
  originalname : String
  path : String
deriving DecidableEq

structure FormatInfo where
  type : String
  target : String
  subSection : String
  id : String
deriving DecidableEq

structure OutputFile where
  path : String
  name : String
  id : String
deriving DecidableEq

/-- The response of one /api/convert request: HTTP status, error body if
any, output descriptors, the items the loop dispatched (in order), and
the paths handed to cleanupFiles by the finally block. -/
structure HandlerResult where
  status : Nat
  error : Option String
  files : List OutputFile
  attempted : List UploadedFile
  cleaned : List String

/-- The upload cap of upload.array and the explicit length check
(part_001 lines 254, 273). -/
def maxFiles : Nat := 5

/-- The count-mismatch error body (part_001 line 280). -/
def mismatchMessage (nFiles nFormats : Nat) : String :=
  s!"Mismatch between files and formats. Files: {nFiles}, Formats: {nFormats}"

/-- The sequential item loop (part_001 lines 284-342): items are processed
in order; the first item whose conversion throws aborts the loop and its
error becomes the result.  Returns the outcome and the list of items for
which a conversion was dispatched. -/
def processItems (conv : UploadedFile → FormatInfo → Except String OutputFile) :
    List (UploadedFile × FormatInfo) →
    Except String (List OutputFile) × List UploadedFile
  | [] => (.ok [], [])
  | (f, fi) :: rest =>
    match conv f fi with
    | .error e => (.error e, [f])
    | .ok out =>
      let r := processItems conv rest
      (match r.1 with
       | .ok outs => .ok (out :: outs)
       | .error e => .error e,
       f :: r.2)

/-- The /api/convert handler (part_001 lines 254-356): parse the formats
payload, validate the batch (non-empty, at most maxFiles files, matching
counts), run the sequential loop, and in every case hand the uploaded
source paths that live under uploadsDir to cleanupFiles (the finally
block, line 354). -/
def convertHandler (conv : UploadedFile → FormatInfo → Except String OutputFile)
    (files : List UploadedFile) (formatsRaw : Option (List FormatInfo)) :
    HandlerResult :=
  let cleaned := (files.map (·.path)).filter (·.startsWith uploadsDir)
  match formatsRaw with
  | none =>
    { status := 400, error := some "Invalid formats data. Please provide valid JSON.",
      files := [], attempted := [], cleaned := cleaned }
  | some formats =>
    if files.length = 0 then
      { status := 400, error := some "No files uploaded.",
        files := [], attempted := [], cleaned := cleaned }
    else if files.length > maxFiles then
      { status := 400, error := some "Maximum 5 files allowed.",
        files := [], attempted := [], cleaned := cleaned }
    else if files.length ≠ formats.length then
      { status := 400, error := some (mismatchMessage files.length formats.length),
        files := [], attempted := [], cleaned := cleaned }
    else
      let r := processItems conv (files.zip formats)
      match r.1 with
      | .ok outs =>
        { status := 200, error := none, files := outs, attempted := r.2, cleaned := cleaned }
      | .error e =>
        { status := 500, error := some e, files := [], attempted := r.2, cleaned := cleaned }

/-! ## Concrete instances used by witnesses and counterexamples -/

/-- Adapters where unoconv and libreoffice-convert fail and the
Ghostscript+Pandoc fallback succeeds. -/
def adaptersThirdOk : DocAdapters :=
  { unoconv := .error "unoconv failed", libre := .error "libre failed", gsPandoc := .ok () }

/-- Adapters where all three candidates fail, with distinct messages. -/
def adaptersAllFail : DocAdapters :=
  { unoconv := .error "unoconv exit 1", libre := .error "libre crashed",
    gsPandoc := .error "pandoc exit 2" }

/-- Environment whose document chain succeeds only at the third adapter. -/
def envThirdOk : ConvEnv :=
  { doc := adaptersThirdOk, svgo := .ok (), sharp := .ok (), pdfkit := .ok () }

/-- A path whose file stays EPERM-locked through both cleanup passes. -/
def stuckPath : String := "/app/Uploads/stuck.bin"

/-- Filesystem with a single file that answers EPERM to the next six unlink
attempts. -/
def fsStuck : String → PathState :=
  fun p => if p = stuckPath then .lockedThen 6 else .absent

/-- A path whose file is briefly locked, deletable on the second attempt. -/
def briefPath : String := "/app/Uploads/brief.bin"

/-- Filesystem with one briefly locked file, deletable on the second
attempt. -/
def fsBriefLock : String → PathState :=
  fun p => if p = briefPath then .lockedThen 1 else .absent

/-- Filesystem with no files at all. -/
def fsEmpty : String → PathState := fun _ => .absent

/-- An item conversion oracle that succeeds on every item. -/
def convOracle : UploadedFile → FormatInfo → Except String OutputFile :=
  fun f fi =>
    .ok { path := "/app/converted/out_" ++ f.originalname,
          name := "out_" ++ f.originalname, id := fi.id }

/-- An item conversion oracle that fails exactly on the file named
b.docx. -/
def convAbort : UploadedFile → FormatInfo → Except String OutputFile :=
  fun f fi =>
    if f.originalname = "b.docx" then .error "Document conversion failed"
    else .ok { path := "/app/converted/out_" ++ f.originalname,
               name := "out_" ++ f.originalname, id := fi.id }

def fileA : UploadedFile := { originalname := "a.png", path := "/app/Uploads/aaa111" }

def fileB : UploadedFile := { originalname := "b.docx", path := "/app/Uploads/bbb222" }

def fileC : UploadedFile := { originalname := "c.mp3", path := "/app/Uploads/ccc333" }

def fmtA : FormatInfo := { type := "image", target := "jpg", subSection := "", id := "1" }

def fmtB : FormatInfo := { type := "document", target := "pdf", subSection := "", id := "2" }

def fmtC : FormatInfo := { type := "audio", target := "wav", subSection := "", id := "3" }

/-- The three-item batch used by the sequential-abort witness. -/
def abortItems : List (UploadedFile × FormatInfo) := [(fileA, fmtA), (fileB, fmtB), (fileC, fmtC)]

/-! # Theorems -/

set_option maxRecDepth 4000

/-! ## C6: target validation -/

/-- Claim C6 counterexample: the handler accepts target extension mp3 for
declared category document, because supportedFormats binds the document
key to the full allFormats list, while the grouped allow-list of the
claim restricts document outputs to pdf/docx/txt/rtf/odt. -/
theorem validateTarget_document_mp3_diverges :
    validateTarget "document" "mp3" = true ∧ specValidateTarget "document" "mp3" = false := by
  decide

/-- Claim C6 (amended): target validation accepts a (category, extension)
pair exactly when the category is one of the eight supportedFormats keys
and the extension is in the full allFormats allow-list, except for the
compressor category which accepts exactly jpg/png/svg; any other pair is
rejected. -/
theorem validateTarget_characterization (t ext : String) :
    validateTarget t ext = true ↔
      ((t = "compressor" ∧ compressorFormats.contains ext = true)
        ∨ (t ∈ (["image", "pdfs", "audio", "video", "document", "archive",
                 "ebook"] : List String)
            ∧ allFormats.contains ext = true)) := by
  unfold validateTarget supportedFormats
  split_ifs with h1 h2 h3 h4 h5 h6 h7 h8 <;> simp_all

/-! ## C1 / C2: document fallback chain -/

/-- Claim C1: a document conversion with a non-image input and a supported
output format runs the three-adapter fallback chain, and that chain tries
unoconv, libreoffice-convert and Ghostscript+Pandoc strictly in that
order, stops at the first success, and in particular succeeds through the
third adapter whenever the first two fail and the third succeeds. -/
theorem convertDocument_fallback_order (env : ConvEnv) :
    (∀ fuel inputExt format, imageFormats.contains inputExt = false →
       supportedDocumentFormats.contains format = true →
       convertDocument env (fuel + 1) inputExt format
         = some (convertDocumentChain env.doc).fst)
  ∧ (env.doc.unoconv = .ok () →
       convertDocumentChain env.doc = (.ok (), [⟨.unoconv, none⟩]))
  ∧ (∀ e1, env.doc.unoconv = .error e1 → env.doc.libre = .ok () →
       convertDocumentChain env.doc
         = (.ok (), [⟨.unoconv, some e1⟩, ⟨.libre, none⟩]))
  ∧ (∀ e1 e2, env.doc.unoconv = .error e1 → env.doc.libre = .error e2 →
       env.doc.gsPandoc = .ok () →
       convertDocumentChain env.doc
         = (.ok (), [⟨.unoconv, some e1⟩, ⟨.libre, some e2⟩, ⟨.gsPandoc, none⟩])) := by
  obtain ⟨⟨u, l, g⟩, sv, sh, pk⟩ := env
  refine ⟨?_, ?_, ?_, ?_⟩
  · intro fuel inputExt format h1 h2
    have h1m : inputExt ∉ imageFormats := by simpa using h1
    have h2m : format ∈ supportedDocumentFormats := by simpa using h2
    simp [convertDocument, h1m, h2m]
  · intro hu
    cases u <;> simp_all [convertDocumentChain]
  · intro e1 hu hl
    cases u <;> cases l <;> simp_all [convertDocumentChain]
  · intro e1 e2 hu hl hg
    cases u <;> cases l <;> cases g <;> simp_all [convertDocumentChain]

/-- Claim C1 witness: with unoconv and libreoffice-convert failing and
Ghostscript+Pandoc succeeding, a docx-to-pdf conversion runs the chain
and the chain succeeds with all three attempt records in order. -/
theorem convertDocument_fallback_order_witness :
    convertDocument envThirdOk 1 "docx" "pdf"
      = some (convertDocumentChain envThirdOk.doc).fst
    ∧ convertDocumentChain envThirdOk.doc
      = (.ok (), [⟨.unoconv, some "unoconv failed"⟩, ⟨.libre, some "libre failed"⟩,
                  ⟨.gsPandoc, none⟩]) :=
  ⟨(convertDocument_fallback_order envThirdOk).1 0 "docx" "pdf" (by decide) (by decide),
   (convertDocument_fallback_order envThirdOk).2.2.2 "unoconv failed" "libre failed"
     rfl rfl rfl⟩

/-- Claim C2 counterexample: when the three adapters fail with three
distinct messages, the error raised to the caller is the fixed
allFailedMessage, and none of the three per-adapter failure messages
occurs inside that string, so the raised error is not an aggregate of the
per-adapter messages. -/
theorem convertDocumentChain_error_not_aggregate :
    (convertDocumentChain adaptersAllFail).fst = .error allFailedMessage
    ∧ ¬ "unoconv exit 1".data <:+: allFailedMessage.data
    ∧ ¬ "libre crashed".data <:+: allFailedMessage.data
    ∧ ¬ "pandoc exit 2".data <:+: allFailedMessage.data := by
  refine ⟨rfl, ?_, ?_, ?_⟩ <;> decide

/-- Claim C2 (amended): when all three adapters fail, the error raised to
the caller is the single fixed message allFailedMessage, independent of
the per-adapter failure messages, which appear only in the attempt log
(one record per adapter tried). -/
theorem convertDocumentChain_allFail (a : DocAdapters) (e1 e2 e3 : String)
    (h1 : a.unoconv = .error e1) (h2 : a.libre = .error e2)
    (h3 : a.gsPandoc = .error e3) :
    convertDocumentChain a =
      (.error allFailedMessage,
       [⟨.unoconv, some e1⟩, ⟨.libre, some e2⟩, ⟨.gsPandoc, some e3⟩]) := by
  obtain ⟨u, l, g⟩ := a
  cases u <;> cases l <;> cases g <;> simp_all [convertDocumentChain]

/-- Claim C2 (amended) witness: the concrete all-failing adapters produce
the fixed message and the three attempt records. -/
theorem convertDocumentChain_allFail_witness :
    convertDocumentChain adaptersAllFail =
      (.error allFailedMessage,
       [⟨.unoconv, some "unoconv exit 1"⟩, ⟨.libre, some "libre crashed"⟩,
        ⟨.gsPandoc, some "pandoc exit 2"⟩]) :=
  convertDocumentChain_allFail adaptersAllFail "unoconv exit 1" "libre crashed"
    "pandoc exit 2" rfl rfl rfl

/-! ## C3 / C4: batch orchestrator -/

/-- Claim C3: a batch whose formats payload fails to parse, whose file
count exceeds maxFiles, or whose file count differs from the
format-descriptor count is rejected with status 400 before any per-item
conversion is dispatched, and in the count-mismatch case the error body
is the message naming both counts. -/
theorem batchValidation_rejects_before_dispatch
    (conv : UploadedFile → FormatInfo → Except String OutputFile)
    (files : List UploadedFile) (formatsRaw : Option (List FormatInfo)) :
    (formatsRaw = none →
       (convertHandler conv files formatsRaw).status = 400
       ∧ (convertHandler conv files formatsRaw).attempted = [])
  ∧ (∀ formats, formatsRaw = some formats → files.length > maxFiles →
       (convertHandler conv files formatsRaw).status = 400
       ∧ (convertHandler conv files formatsRaw).attempted = [])
  ∧ (∀ formats, formatsRaw = some formats → files.length ≠ 0 →
       files.length ≤ maxFiles → files.length ≠ formats.length →
       (convertHandler conv files formatsRaw).status = 400
       ∧ (convertHandler conv files formatsRaw).attempted = []
       ∧ (convertHandler conv files formatsRaw).error
           = some (mismatchMessage files.length formats.length)) := by
  refine ⟨?_, ?_, ?_⟩
  · rintro rfl
    simp [convertHandler]
  · rintro formats rfl h
    have h0 : ¬ files.length = 0 := by omega
    simp [convertHandler, h0, h]
  · rintro formats rfl h0 h5 hm
    have h5' : ¬ files.length > maxFiles := by omega
    simp [convertHandler, h0, h5', hm]

/-- Claim C3 witness: a batch of one file with two format descriptors is
rejected with the count-mismatch message naming both counts and no item
is dispatched. -/
theorem batchValidation_rejects_witness :
    (convertHandler convOracle [fileA] (some [fmtA, fmtB])).status = 400
    ∧ (convertHandler convOracle [fileA] (some [fmtA, fmtB])).attempted = []
    ∧ (convertHandler convOracle [fileA] (some [fmtA, fmtB])).error
        = some (mismatchMessage ([fileA] : List UploadedFile).length
            ([fmtA, fmtB] : List FormatInfo).length) :=
  (batchValidation_rejects_before_dispatch convOracle [fileA]
      (some [fmtA, fmtB])).2.2 [fmtA, fmtB] rfl (by decide) (by decide) (by decide)

/-- The sequential loop attempts the successful prefix and the first
failing item, aborts there, and surfaces that single error. -/
theorem processItems_first_error
    (conv : UploadedFile → FormatInfo → Except String OutputFile)
    (pre : List (UploadedFile × FormatInfo)) (bad : UploadedFile × FormatInfo)
    (post : List (UploadedFile × FormatInfo)) (e : String)
    (hpre : ∀ x ∈ pre, ∃ out, conv x.1 x.2 = .ok out)
    (hbad : conv bad.1 bad.2 = .error e) :
    processItems conv (pre ++ bad :: post)
      = (.error e, pre.map (·.1) ++ [bad.1]) := by
  induction pre with
  | nil =>
    obtain ⟨f, fi⟩ := bad
    simp [processItems, hbad]
  | cons x xs ih =>
    obtain ⟨f, fi⟩ := x
    obtain ⟨out, hx⟩ := hpre (f, fi) (by simp)
    have ih' := ih (fun y hy => hpre y (by simp [hy]))
    simp [processItems, hx, ih']

/-- Claim C4: in a validated batch, items are processed sequentially in
input order; the first item whose conversion fails aborts the loop (the
items after it are never dispatched), the response is status 500 carrying
that single error message, and the finally block still hands the uploaded
source paths of all items, including the unprocessed ones, to cleanup. -/
theorem sequentialAbort_and_cleanup
    (conv : UploadedFile → FormatInfo → Except String OutputFile)
    (pre : List (UploadedFile × FormatInfo)) (bad : UploadedFile × FormatInfo)
    (post : List (UploadedFile × FormatInfo)) (e : String)
    (hpre : ∀ x ∈ pre, ∃ out, conv x.1 x.2 = .ok out)
    (hbad : conv bad.1 bad.2 = .error e)
    (hlen : (pre ++ bad :: post).length ≤ maxFiles) :
    (convertHandler conv ((pre ++ bad :: post).map (·.1))
        (some ((pre ++ bad :: post).map (·.2)))).status = 500
    ∧ (convertHandler conv ((pre ++ bad :: post).map (·.1))
        (some ((pre ++ bad :: post).map (·.2)))).error = some e
    ∧ (convertHandler conv ((pre ++ bad :: post).map (·.1))
        (some ((pre ++ bad :: post).map (·.2)))).attempted
        = pre.map (·.1) ++ [bad.1]
    ∧ (convertHandler conv ((pre ++ bad :: post).map (·.1))
        (some ((pre ++ bad :: post).map (·.2)))).cleaned
        = (((pre ++ bad :: post).map (·.1)).map (·.path)).filter
            (·.startsWith uploadsDir) := by
  have hzip : (((pre ++ bad :: post).map (·.1)).zip ((pre ++ bad :: post).map (·.2)))
      = pre ++ bad :: post := by
    rw [List.zip_map']
    simp
  have h0 : ¬ ((pre ++ bad :: post).map (·.1)).length = 0 := by
    simp
  have h5 : ¬ ((pre ++ bad :: post).map (·.1)).length > maxFiles := by
    simpa using hlen
  have heq : ((pre ++ bad :: post).map (·.1)).length
      = ((pre ++ bad :: post).map (·.2)).length := by
    simp
  have hp := processItems_first_error conv pre bad post e hpre hbad
  simp only [convertHandler]
  rw [if_neg h0, if_neg h5, if_neg (fun h => h heq), hzip, hp]
  simp

/-- Claim C4 witness: in the concrete three-item batch where the second
item fails, the response is the single failure message, only the first
two items were dispatched, and the uploaded paths of all three items are
cleaned. -/
theorem sequentialAbort_and_cleanup_witness :
    (convertHandler convAbort (abortItems.map (·.1))
        (some (abortItems.map (·.2)))).status = 500
    ∧ (convertHandler convAbort (abortItems.map (·.1))
        (some (abortItems.map (·.2)))).error = some "Document conversion failed"
    ∧ (convertHandler convAbort (abortItems.map (·.1))
        (some (abortItems.map (·.2)))).attempted
        = [(fileA, fmtA)].map (·.1) ++ [(fileB, fmtB).1]
    ∧ (convertHandler convAbort (abortItems.map (·.1))
        (some (abortItems.map (·.2)))).cleaned
        = ((abortItems.map (·.1)).map (·.path)).filter (·.startsWith uploadsDir) :=
  sequentialAbort_and_cleanup convAbort [(fileA, fmtA)] (fileB, fmtB) [(fileC, fmtC)]
    "Document conversion failed"
    (by intro x hx; simp at hx; subst hx; exact ⟨_, rfl⟩)
    rfl (by decide)

/-! ## C5: multi-stage recursion depth -/

/-- A pdf input with an image target re-enters the document-like
preprocessing branch of convertImage at every recursion level (pdf is in
docLikeFormats), so no amount of fuel suffices. -/
theorem convertImage_pdf_png_no_fuel :
    ∀ fuel subSection, convertImage envAllOk fuel "pdf" "png" subSection = none := by
  intro fuel
  induction fuel with
  | zero => intro s; rfl
  | succ n ih =>
    intro s
    have hcond : (!imageFormats.contains "pdf" && docLikeFormats.contains "pdf") = true := by
      decide
    have h1 : ("pdf" : String) ∉ imageFormats := by decide
    have h2 : ("pdf" : String) ∈ supportedDocumentFormats := by decide
    have hdoc : convertDocument envAllOk n "pdf" "pdf" = none
        ∨ convertDocument envAllOk n "pdf" "pdf" = some (.ok ()) := by
      cases n with
      | zero => exact .inl rfl
      | succ m =>
        right
        simp [convertDocument, convertDocumentChain, envAllOk, h1, h2]
    simp only [convertImage]
    rw [if_pos hcond]
    rcases hdoc with hd | hd
    · rw [hd]
    · rw [hd]
      exact ih s

/-- Claim C5: converting a document-format source (docx) to an image
target (png) never terminates, even when every external adapter succeeds:
for every recursion-depth budget, convertImage runs out of budget, because
after the first document-to-PDF stage the intermediate pdf input triggers
the same preprocessing branch again instead of a PDF-to-image stage.  The
recursion is not capped at 2 stages and deeper chains are not rejected. -/
theorem convertImage_docx_png_diverges :
    ∀ fuel subSection, convertImage envAllOk fuel "docx" "png" subSection = none := by
  intro fuel
  cases fuel with
  | zero => intro s; rfl
  | succ n =>
    intro s
    have hcond : (!imageFormats.contains "docx" && docLikeFormats.contains "docx") = true := by
      decide
    have h1 : ("docx" : String) ∉ imageFormats := by decide
    have h2 : ("pdf" : String) ∈ supportedDocumentFormats := by decide
    have hdoc : convertDocument envAllOk n "docx" "pdf" = none
        ∨ convertDocument envAllOk n "docx" "pdf" = some (.ok ()) := by
      cases n with
      | zero => exact .inl rfl
      | succ m =>
        right
        simp [convertDocument, convertDocumentChain, envAllOk, h1, h2]
    simp only [convertImage]
    rw [if_pos hcond]
    rcases hdoc with hd | hd
    · rw [hd]
    · rw [hd]
      exact convertImage_pdf_png_no_fuel n s

/-! ## C7 / C10: bounded-retry cleanup and the delete endpoint -/

/-- An absent path is reported as already absent by the retry loop, at any
attempt budget. -/
theorem deleteWithRetry_absent (fuel : Nat) :
    deleteWithRetry fuel .absent = (.alreadyAbsent, .absent) := by
  cases fuel <;> rfl

/-- A file whose remaining EPERM count is below the attempt budget gets
deleted. -/
theorem deleteWithRetry_unlocks (fuel k : Nat) (h : k < fuel) :
    deleteWithRetry fuel (.lockedThen k) = (.deleted, .absent) := by
  induction fuel generalizing k with
  | zero => omega
  | succ n ih =>
    cases k with
    | zero => rfl
    | succ j =>
      simp only [deleteWithRetry]
      exact ih j (by omega)

/-- A file whose remaining EPERM count is at least the attempt budget is
given up after consuming exactly the budget. -/
theorem deleteWithRetry_leak (fuel k : Nat) (h : fuel ≤ k) :
    deleteWithRetry fuel (.lockedThen k) = (.epermGaveUp, .lockedThen (k - fuel)) := by
  induction fuel generalizing k with
  | zero => simp [deleteWithRetry]
  | succ n ih =>
    cases k with
    | zero => omega
    | succ j =>
      simp only [deleteWithRetry]
      rw [ih j (by omega)]
      simp [Nat.succ_sub_succ]

/-- Claim C7 (amended): cleanup produces one non-throwing outcome per
path; an absent path counts as success; a transiently locked file is
deleted within the at most maxRetries unlink attempts when its lock
clears in time, and otherwise is given up as a non-fatal leak with the
file still present; the second of two successive invocations treats as
already absent every path that the first invocation deleted or found
absent (but not a path leaked through persistent permission errors). -/
theorem cleanupFiles_bounded_retry_idempotent (fs : String → PathState)
    (paths : List String) (p : String) (hp : p ∈ paths) :
    ((cleanupFiles fs paths).1.length = paths.length)
  ∧ (fs p = .absent →
       (p, .alreadyAbsent) ∈ (cleanupFiles fs paths).1
       ∧ (cleanupFiles fs paths).2 p = .absent)
  ∧ (∀ k, fs p = .lockedThen k → k < maxRetries →
       (p, .deleted) ∈ (cleanupFiles fs paths).1
       ∧ (cleanupFiles fs paths).2 p = .absent)
  ∧ (∀ k, fs p = .lockedThen k → maxRetries ≤ k →
       (p, .epermGaveUp) ∈ (cleanupFiles fs paths).1
       ∧ (cleanupFiles fs paths).2 p = .lockedThen (k - maxRetries))
  ∧ ((fs p = .absent ∨ ∃ k, fs p = .lockedThen k ∧ k < maxRetries) →
       (p, .alreadyAbsent) ∈ (cleanupFiles (cleanupFiles fs paths).2 paths).1) := by
  have hc : paths.contains p = true := by simpa using hp
  have hafter : (fs p = .absent ∨ ∃ k, fs p = .lockedThen k ∧ k < maxRetries) →
      (cleanupFiles fs paths).2 p = .absent := by
    rintro (habs | ⟨k, hk, hklt⟩) <;> simp only [cleanupFiles, hc, if_pos]
    · rw [habs, deleteWithRetry_absent]
    · rw [hk, deleteWithRetry_unlocks maxRetries k hklt]
  refine ⟨by simp [cleanupFiles], ?_, ?_, ?_, ?_⟩
  · intro habs
    constructor
    · exact List.mem_map.mpr ⟨p, hp, by rw [habs, deleteWithRetry_absent]⟩
    · exact hafter (.inl habs)
  · intro k hk hklt
    constructor
    · exact List.mem_map.mpr ⟨p, hp, by rw [hk, deleteWithRetry_unlocks maxRetries k hklt]⟩
    · exact hafter (.inr ⟨k, hk, hklt⟩)
  · intro k hk hkge
    constructor
    · exact List.mem_map.mpr ⟨p, hp, by rw [hk, deleteWithRetry_leak maxRetries k hkge]⟩
    · simp only [cleanupFiles, hc, if_pos]
      rw [hk, deleteWithRetry_leak maxRetries k hkge]
  · intro hgone
    exact List.mem_map.mpr ⟨p, hp, by rw [hafter hgone, deleteWithRetry_absent]⟩

/-- Claim C7 (amended) witness: a briefly locked file is deleted on the
first cleanup pass and reported already absent on the second. -/
theorem cleanupFiles_bounded_retry_idempotent_witness :
    fsBriefLock briefPath = .lockedThen 1 ∧ 1 < maxRetries
    ∧ (briefPath, .deleted) ∈ (cleanupFiles fsBriefLock [briefPath]).1
    ∧ (briefPath, .alreadyAbsent)
        ∈ (cleanupFiles (cleanupFiles fsBriefLock [briefPath]).2 [briefPath]).1 :=
  ⟨rfl, by decide,
   ((cleanupFiles_bounded_retry_idempotent fsBriefLock [briefPath] briefPath
       (by simp)).2.2.1 1 rfl (by decide)).1,
   (cleanupFiles_bounded_retry_idempotent fsBriefLock [briefPath] briefPath
       (by simp)).2.2.2.2 (.inr ⟨1, rfl, by decide⟩)⟩

/-- Claim C7 counterexample: a file that answers EPERM to six successive
unlink attempts survives the first cleanup pass as a leak, so the second
invocation does not treat it as already absent: it retries and gives up
again, and the path is still present between the passes. -/
theorem cleanup_second_pass_not_absent :
    (cleanupFiles fsStuck [stuckPath]).2 stuckPath = .lockedThen 3
    ∧ (cleanupFiles (cleanupFiles fsStuck [stuckPath]).2 [stuckPath]).1
        = [(stuckPath, .epermGaveUp)]
    ∧ (cleanupFiles fsStuck [stuckPath]).2 stuckPath ≠ .absent := by
  refine ⟨?_, ?_, ?_⟩ <;> decide

/-- Claim C10: the delete endpoint always responds 200 (cleanupFiles never
rejects, so the 500 catch branch is unreachable), and in particular for a
file name absent from the converted directory the underlying cleanup
reports the ENOENT as an already-absent success. -/
theorem deleteEndpoint_absent_file_200 (fs : String → PathState) (filename : String) :
    (deleteHandler fs filename).1.1 = 200
    ∧ (fs (convertedDir ++ "/" ++ filename) = .absent →
        (cleanupFiles fs [convertedDir ++ "/" ++ filename]).1
          = [(convertedDir ++ "/" ++ filename, .alreadyAbsent)]
        ∧ (deleteHandler fs filename).2 (convertedDir ++ "/" ++ filename) = .absent) := by
  refine ⟨rfl, fun h => ⟨?_, ?_⟩⟩
  · simp [cleanupFiles, h, deleteWithRetry_absent]
  · simp [deleteHandler, cleanupFiles, h, deleteWithRetry_absent]

/-- Claim C10 witness: deleting ghost.pdf on an empty filesystem responds
200 and the cleanup records the path as already absent. -/
theorem deleteEndpoint_absent_file_200_witness :
    fsEmpty (convertedDir ++ "/" ++ "ghost.pdf") = .absent
    ∧ (deleteHandler fsEmpty "ghost.pdf").1.1 = 200
    ∧ (cleanupFiles fsEmpty [convertedDir ++ "/" ++ "ghost.pdf"]).1
        = [(convertedDir ++ "/" ++ "ghost.pdf", .alreadyAbsent)] :=
  ⟨rfl, (deleteEndpoint_absent_file_200 fsEmpty "ghost.pdf").1,
   ((deleteEndpoint_absent_file_200 fsEmpty "ghost.pdf").2 rfl).1⟩

/-! ## C8: audio-to-video synthesis -/

/-- Claim C8: for an audio-only input extension and a video-container
target format, the media converter does not fail on the mismatch: it
builds the ffmpeg command with the synthesized fixed-resolution black
lavfi video source as a second input, muxed against the original audio
input with the aac audio codec, stopping at the shortest stream. -/
theorem convertMedia_audio_to_video (inputPath inputExt format : String)
    (hin : audioInputExts.contains inputExt = true)
    (hout : supportedVideoFormats.contains format = true) :
    convertMediaCommand inputPath format inputExt
      = .ok { mainInput := inputPath,
              extraInput := some blackVideoSource, extraInputFormat := some "lavfi",
              videoCodec := some "mpeg4", audioCodec := some "aac",
              extraOutputOptions := ["-shortest", "-threads 1", "-preset ultrafast",
                                     "-threads 1", "-preset ultrafast"],
              outputFormat := format } := by
  have hin2 : inputExt ∈ audioInputExts := by simpa using hin
  have hout2 : format ∈ supportedVideoFormats := by simpa using hout
  simp [convertMediaCommand, hin2, hout2]

/-- Claim C8 witness: an mp3 source with an mp4 target yields the command
with the black 320x240 lavfi video input and the original audio input. -/
theorem convertMedia_audio_to_video_witness :
    convertMediaCommand "/app/Uploads/song" "mp4" "mp3"
      = .ok { mainInput := "/app/Uploads/song",
              extraInput := some blackVideoSource, extraInputFormat := some "lavfi",
              videoCodec := some "mpeg4", audioCodec := some "aac",
              extraOutputOptions := ["-shortest", "-threads 1", "-preset ultrafast",
                                     "-threads 1", "-preset ultrafast"],
              outputFormat := "mp4" } :=
  convertMedia_audio_to_video "/app/Uploads/song" "mp3" "mp4" (by decide) (by decide)

/-! ## C9: intermediate artifact location -/

/-- Claim C9 counterexample: in the src/server.js variant of convertImage
the intermediate PDF is created inside the externally served converted
directory itself, not in a scratch directory distinct from it, and it is
reachable through the download route while it exists. -/
theorem serverJs_intermediate_in_converted_dir :
    (serverJsImageTempPdf 0).dir = convertedDir
    ∧ isServed (serverJsImageTempPdf 0)
    ∧ (serverJsImageTempPdf 0).dir ≠ tempDir :=
  ⟨rfl, ⟨(serverJsImageTempPdf 0).name, rfl⟩, by decide⟩

/-- Claim C9 (amended): in the part_001 pipeline every intermediate
artifact (the temporary PDFs of convertImage, convertPdf and
convertDocument, the temporary libreoffice input copy, and the
Ghostscript scratch directory) lives in the process-private scratch
directory tempDir, which is distinct from the served convertedDir, so
none of them is reachable through the download route; in the legacy
src/server.js variant, however, the intermediate PDF is created inside
the served converted directory. -/
theorem part001_intermediates_in_scratch :
    (∀ ts, (imageTempPdf ts).dir = tempDir)
  ∧ (∀ ts, (pdfTempPdf ts).dir = tempDir)
  ∧ (∀ ts, (documentTempPdf ts).dir = tempDir)
  ∧ (∀ ts ext, (libreTempInput ts ext).dir = tempDir)
  ∧ (∀ sfx, (gsScratchDir sfx).dir = tempDir)
  ∧ tempDir ≠ convertedDir
  ∧ (∀ ts, ¬ isServed (imageTempPdf ts))
  ∧ (∀ ts, ¬ isServed (documentTempPdf ts))
  ∧ (∀ ts, (serverJsImageTempPdf ts).dir = convertedDir
       ∧ isServed (serverJsImageTempPdf ts)) := by
  refine ⟨fun _ => rfl, fun _ => rfl, fun _ => rfl, fun _ _ => rfl, fun _ => rfl,
    by decide, ?_, ?_, fun ts => ⟨rfl, ⟨(serverJsImageTempPdf ts).name, rfl⟩⟩⟩
  all_goals
    rintro ts ⟨fn, h⟩
    have hdir : tempDir = convertedDir := congrArg ArtifactPath.dir h
    exact absurd hdir (by decide)

end Convertors
